import Mathlib

/-!
Verification development for Final_Model_Files/SuperCreateModel.py.

The file shallowly embeds the two model lifecycles of SuperCreateModel.py:
the gradient lifecycle (class TorchModel) and the fit/predict lifecycle
(class SklearnModel).  Machine-learning internals (the fitted estimators,
torch tensors, the sigmoid squashing) are abstracted: a model evaluation is
represented by the list of per-sample predicted probabilities it produces
(post-sigmoid for the torch path, predict_proba for the sklearn path) or by
the list of raw labels (for unsupervised estimators).  Everything downstream
of those numbers - thresholding, the confusion matrix, accuracy, the
training-loop orchestration, checkpoint records and filenames, the guard in
SklearnModel.train and the base TorchModel.initModel - is translated
directly from the source.
-/

/-! ### Dataset reader collaborator -/

/-- A fitted feature scaler, identified by the csv file whose data it was
fitted on.  The lifecycles never inspect a scaler beyond passing it around,
so its fitting data is all the state the embedding needs. -/
structure Scalar where
  fitOnFile : String
deriving DecidableEq

/-- A dataset produced by the DatasetReader collaborator: the csv it was read
from, whether majority-class undersampling was applied, and the scaler
argument it was constructed with (none means a fresh scaler is fitted on this
csv). -/
structure Dataset where
  csv_file : String
  undersample : Bool
  scalarArg : Option Scalar
deriving DecidableEq

/-- Modelled from the spec: the DatasetReader collaborator (its module is not
among the repository files provided).  Per the spec, it is constructed from a
csv path, an undersample flag and an optional pre-fitted scaler, and exposes
the fitted (or passed-through) scaler. -/
def DatasetReader (csv_file : String) (undersample : Bool)
    (scalarArg : Option Scalar) : Dataset :=
  { csv_file := csv_file, undersample := undersample, scalarArg := scalarArg }

/-- Modelled from the spec: getScalar returns the scaler passed at
construction when there was one, and otherwise the scaler freshly fitted on
this csv file. -/
def Dataset.getScalar (d : Dataset) : Scalar :=
  match d.scalarArg with
  | some s => s
  | none => { fitOnFile := d.csv_file }

/-! ### sklearn.metrics.confusion_matrix

Embedding of the library call used by both lifecycles.  Its documented
behaviour: the label set is the sorted distinct values appearing in either
argument, and entry (i, j) counts the samples whose actual label is the
i-th label and whose predicted label is the j-th label. -/

/-- Insert an integer into a sorted list, keeping it sorted. -/
def insertSorted (a : Int) : List Int → List Int
  | [] => [a]
  | y :: ys => if a ≤ y then a :: y :: ys else y :: insertSorted a ys

/-- Insertion sort for integer lists. -/
def sortInts : List Int → List Int
  | [] => []
  | x :: xs => insertSorted x (sortInts xs)

/-- The label axis of the confusion matrix: the sorted distinct values
appearing in the actual or the predicted labels. -/
def cmLabels (y_true y_pred : List Int) : List Int :=
  sortInts ((y_true ++ y_pred).dedup)

/-- The count of samples with actual label a and predicted label p. -/
def cmEntry (y_true y_pred : List Int) (a p : Int) : Nat :=
  ((y_true.zip y_pred).filter (fun z => z.1 == a && z.2 == p)).length

/-- sklearn.metrics.confusion_matrix as a list of rows, one row per actual
label, one column per predicted label. -/
def confusion_matrix (y_true y_pred : List Int) : List (List Nat) :=
  (cmLabels y_true y_pred).map
    (fun a => (cmLabels y_true y_pred).map (fun p => cmEntry y_true y_pred a p))

/-- Sum of a list of naturals. -/
def listSum : List Nat → Nat
  | [] => 0
  | x :: xs => x + listSum xs

/-- numpy sum over all entries of the matrix, as in cm.sum(). -/
def cmSum (cm : List (List Nat)) : Nat :=
  listSum (cm.map listSum)

/-- Matrix indexing cm[i, j]: none when the index is out of bounds, which in
the source raises IndexError. -/
def cmGet (cm : List (List Nat)) (i j : Nat) : Option Nat :=
  match cm[i]? with
  | some row => row[j]?
  | none => none

/-- An in-bounds matrix cell read, defaulting to 0 (used only to state
properties of reads that are proved in bounds). -/
def cmCell (cm : List (List Nat)) (i j : Nat) : Nat :=
  (cmGet cm i j).getD 0

/-- The accuracy computed by both test methods:
(cm[0, 0] + cm[1, 1]) / cm.sum().  none when one of the two reads is out of
bounds, in which case the source raises IndexError instead of producing an
accuracy. -/
def accuracyOf (cm : List (List Nat)) : Option ℚ :=
  match cmGet cm 0 0, cmGet cm 1 1 with
  | some a, some d => some (((a : ℚ) + (d : ℚ)) / (cmSum cm : ℚ))
  | _, _ => none

/-! ### TorchModel: the gradient lifecycle -/

/-- The thresholding of TorchModel.test, line 138:
predicted = (torch.sigmoid(outputs) >= threshold).float().  The input list
holds the post-sigmoid probability of each test sample. -/
def TorchModel.predictions (probs : List ℚ) (threshold : ℚ) : List Int :=
  probs.map (fun p => if threshold ≤ p then 1 else 0)

/-- TorchModel.test, lines 129-144: threshold the per-sample probabilities,
build the confusion matrix against the test targets, and derive the accuracy
as (cm[0, 0] + cm[1, 1]) / cm.sum(). -/
def TorchModel.test (probs : List ℚ) (target : List Int) (threshold : ℚ) :
    List (List Nat) × Option ℚ :=
  (confusion_matrix target (TorchModel.predictions probs threshold),
   accuracyOf (confusion_matrix target (TorchModel.predictions probs threshold)))

/-- The orchestration state of one TorchModel instance.  Alongside the
attributes of the class (train_file, threshold, train_dataset, scalar,
test_dataset, cms) it records the externally visible history of a run: the
datasets passed to train(), the datasets constructed inside the epoch loop,
how many checkpoints were persisted, and what was handed to plotCM. -/
structure TorchRun where
  train_file : String
  threshold : ℚ
  train_dataset : Dataset
  scalar : Scalar
  test_dataset : Dataset
  trainedOn : List Dataset
  resampled : List Dataset
  cms : List (List (List Nat))
  savedCount : Nat
  plotted : Option (List (List (List Nat)) × List String)
deriving DecidableEq

/-- TorchModel constructor, lines 72-84: read the training set with
undersampling (fitting the scaler there), keep the fitted scaler, and read
the test set passing that scaler. -/
def TorchModel.init (train_file test_file : String) (threshold : ℚ) : TorchRun :=
  { train_file := train_file
    threshold := threshold
    train_dataset := DatasetReader train_file true none
    scalar := (DatasetReader train_file true none).getScalar
    test_dataset := DatasetReader test_file false (some (DatasetReader train_file true none).getScalar)
    trainedOn := []
    resampled := []
    cms := []
    savedCount := 0
    plotted := none }

/-- One iteration of the loop body of TorchModel.commenceTraining, lines
148-157: self.train() on the current training set, then reconstruct the
training set with undersampling and the already fitted scaler, then
self.test() (producing this epoch's confusion matrix cm), then
self.saveModel(), then append cm to self.cms. -/
def torchEpochStep (cm : List (List Nat)) (r : TorchRun) : TorchRun :=
  let d := DatasetReader r.train_file true (some r.scalar)
  { r with
    trainedOn := r.trainedOn ++ [r.train_dataset]
    train_dataset := d
    resampled := r.resampled ++ [d]
    savedCount := r.savedCount + 1
    cms := r.cms ++ [cm] }

/-- The epoch loop: k iterations remaining, t the current epoch index.  The
confusion matrix produced when epoch t evaluates the model is abstracted as
cmOf t, since it depends on the learned weights. -/
def torchLoop (cmOf : Nat → List (List Nat)) : Nat → Nat → TorchRun → TorchRun
  | 0, _, r => r
  | k + 1, t, r => torchLoop cmOf k (t + 1) (torchEpochStep (cmOf t) r)

/-- TorchModel.commenceTraining, lines 146-159: reset self.cms, run the fixed
number of epochs, then hand all recorded confusion matrices and the titles to
plotCM. -/
def TorchModel.commenceTraining (epochs : Nat) (cmOf : Nat → List (List Nat))
    (titles : List String) (r : TorchRun) : TorchRun :=
  let rf := torchLoop cmOf epochs 0 { r with cms := [] }
  { rf with plotted := some (rf.cms, titles) }

/-- Python exception values raised by the embedded methods. -/
inductive PyError
  | valueError (msg : String)
deriving DecidableEq

/-- Python sentinel values returned by the embedded methods. -/
inductive PyValue
  | notImplemented
deriving DecidableEq

/-- TorchModel.initModel, lines 94-98.  The body is the single statement
return NotImplemented: the call returns the NotImplemented sentinel normally
and raises nothing. -/
def TorchModel.initModel : Except PyError PyValue :=
  Except.ok PyValue.notImplemented

/-- The record both saveModel methods serialize: exactly the fields model,
threshold, model_type and scalar. -/
structure Checkpoint (M : Type) where
  model : M
  threshold : ℚ
  model_type : String
  scalar : Scalar

/-- TorchModel.saveModel, lines 161-172: the persisted record stores the
constant model_type "PyTorch", while the filename uses the subclass tag
self.model_type and the strftime timestamp, with extension .pth. -/
def TorchModel.saveModel (M : Type) (model : M) (threshold : ℚ)
    (model_type : String) (scalar : Scalar) (timestamp : String) :
    Checkpoint M × String :=
  ({ model := model, threshold := threshold, model_type := "PyTorch", scalar := scalar },
   model_type ++ "Model_" ++ timestamp ++ ".pth")

/-! ### SklearnModel: the fit/predict lifecycle -/

/-- An sklearn estimator, abstracted to the record of what it was fitted on
(none before any fit call). -/
structure SkModel where
  fitOn : Option Dataset
deriving DecidableEq

/-- The attributes of one SklearnModel instance set by its constructor. -/
structure SklearnState where
  train_file : String
  test_file : String
  train_dataset : Dataset
  scalar : Scalar
  test_dataset : Dataset
  threshold : ℚ
  supervised : Bool
  model : Option SkModel
  titles : List String
deriving DecidableEq

/-- SklearnModel constructor, lines 221-236: read the training set with
undersampling (fitting the scaler), keep the fitted scaler, read the test set
passing that scaler, default supervised to true, leave model unassigned. -/
def SklearnModel.init (train_file test_file : String) (threshold : ℚ) :
    SklearnState :=
  { train_file := train_file
    test_file := test_file
    train_dataset := DatasetReader train_file true none
    scalar := (DatasetReader train_file true none).getScalar
    test_dataset := DatasetReader test_file false (some (DatasetReader train_file true none).getScalar)
    threshold := threshold
    supervised := true
    model := none
    titles := ["Model Training"] }

/-- The effect of model.fit(X_train, y_train) on the abstract estimator. -/
def SklearnModel.fitModel (m : SkModel) (d : Dataset) : SkModel :=
  { m with fitOn := some d }

/-- SklearnModel.train, lines 238-241: raise
ValueError("Model not defined. Please set self.model in subclass before training.")
when self.model is None, before touching any state; otherwise fit the model
on the training data.  The returned pair is the outcome of the call and the
state of the instance after the call. -/
def SklearnModel.train (s : SklearnState) : Except PyError Unit × SklearnState :=
  match s.model with
  | none =>
      (Except.error (PyError.valueError
        "Model not defined. Please set self.model in subclass before training."), s)
  | some m =>
      (Except.ok (), { s with model := some (SklearnModel.fitModel m s.train_dataset) })

/-- The branch of SklearnModel.test, lines 244-249: a supervised model
thresholds the positive-class probabilities
(y_prob >= threshold as int), an unsupervised model maps its raw output
label through np.where(y_raw == 1, 1, 0), with no threshold involved. -/
def SklearnModel.predictions (sup : Bool) (y_prob : List ℚ) (y_raw : List Int)
    (threshold : ℚ) : List Int :=
  match sup with
  | true => y_prob.map (fun p => if threshold ≤ p then 1 else 0)
  | false => y_raw.map (fun r => if r = 1 then 1 else 0)

/-- SklearnModel.test, lines 243-252: produce the predictions for the model
kind, the confusion matrix against y_test, and the derived accuracy
(cm[0, 0] + cm[1, 1]) / cm.sum(). -/
def SklearnModel.test (sup : Bool) (y_prob : List ℚ) (y_raw : List Int)
    (y_test : List Int) (threshold : ℚ) : List (List Nat) × Option ℚ :=
  (confusion_matrix y_test (SklearnModel.predictions sup y_prob y_raw threshold),
   accuracyOf (confusion_matrix y_test (SklearnModel.predictions sup y_prob y_raw threshold)))

/-- SklearnModel.saveModel, lines 262-272: the persisted record stores the
subclass tag self.model_type itself, and the filename uses the same pattern
as the gradient lifecycle with extension .joblib. -/
def SklearnModel.saveModel (M : Type) (model : M) (threshold : ℚ)
    (model_type : String) (scalar : Scalar) (timestamp : String) :
    Checkpoint M × String :=
  ({ model := model, threshold := threshold, model_type := model_type, scalar := scalar },
   model_type ++ "Model_" ++ timestamp ++ ".joblib")

/-! ### Definitions used to state individual claims -/

/-- The number of positive (fraud) predictions in a prediction list. -/
def positiveCount (preds : List Int) : Nat :=
  (preds.filter (fun x => x == 1)).length

/-- The sequence of training sets the epoch loop trains on when it starts
from initial set d0 and every resample produces dRe: the first epoch trains
on d0, every later epoch on the previous resample. -/
def trainedSeq (d0 dRe : Dataset) : Nat → List Dataset
  | 0 => []
  | k + 1 => d0 :: List.replicate k dRe

/-- Claim C2 as stated: every epoch first re-samples the training set and
then trains on that fresh resample, so over a whole run the sequence of
datasets trained on coincides with the sequence of datasets resampled. -/
def trainsOnlyOnFreshResamples (r : TorchRun) : Bool :=
  r.trainedOn == r.resampled

/-- Claim C7 as stated: a sample is classified positive exactly when its
predicted probability is strictly above the threshold. -/
def claimedPositive (p threshold : ℚ) : Bool :=
  threshold < p

/-- The invariant package claim C1 asserts of one evaluation result (the
pair of confusion matrix and derived accuracy) over n evaluated samples: the
four cells of the 2x2 matrix total n, cm.sum() is n, and the accuracy is
(cm[0, 0] + cm[1, 1]) / n, lying between 0 and 1. -/
def evalOk (res : List (List Nat) × Option ℚ) (n : Nat) : Prop :=
  cmCell res.1 0 0 + cmCell res.1 0 1 + cmCell res.1 1 0 + cmCell res.1 1 1 = n ∧
  cmSum res.1 = n ∧
  res.2 = some (((cmCell res.1 0 0 + cmCell res.1 1 1 : Nat) : ℚ) / (n : ℚ)) ∧
  0 ≤ (((cmCell res.1 0 0 + cmCell res.1 1 1 : Nat) : ℚ) / (n : ℚ)) ∧
  (((cmCell res.1 0 0 + cmCell res.1 1 1 : Nat) : ℚ) / (n : ℚ)) ≤ 1

/-! ### Helper lemmas about the confusion matrix -/

lemma mem_insertSorted {x a : Int} : ∀ {l : List Int},
    x ∈ insertSorted a l ↔ x = a ∨ x ∈ l := by
  intro l
  induction l with
  | nil => simp [insertSorted]
  | cons y ys ih =>
    by_cases h : a ≤ y
    · simp [insertSorted, h]
    · simp only [insertSorted, if_neg h, List.mem_cons, ih]
      tauto

lemma mem_sortInts {x : Int} : ∀ {l : List Int}, x ∈ sortInts l ↔ x ∈ l := by
  intro l
  induction l with
  | nil => simp [sortInts]
  | cons y ys ih => simp [sortInts, mem_insertSorted, ih]

lemma mem_of_labels01 (yt yp : List Int) (hlab : cmLabels yt yp = [0, 1]) :
    ∀ x : Int, x ∈ yt ++ yp → x = 0 ∨ x = 1 := by
  intro x hx
  have h1 : x ∈ cmLabels yt yp := by
    unfold cmLabels
    rw [mem_sortInts]
    exact List.mem_dedup.mpr hx
  rw [hlab] at h1
  simpa using h1

lemma labels01_length_pos (yt yp : List Int) (hlen : yp.length = yt.length)
    (hlab : cmLabels yt yp = [0, 1]) : 0 < yt.length := by
  have h0 : (0 : Int) ∈ cmLabels yt yp := by rw [hlab]; simp
  have hmem : (0 : Int) ∈ yt ++ yp := by
    unfold cmLabels at h0
    rw [mem_sortInts] at h0
    exact List.mem_dedup.mp h0
  rcases List.mem_append.mp hmem with h | h
  · exact List.length_pos.mpr (List.ne_nil_of_mem h)
  · rw [← hlen]
    exact List.length_pos.mpr (List.ne_nil_of_mem h)

lemma four_counts : ∀ zs : List (Int × Int),
    (∀ z ∈ zs, (z.1 = 0 ∨ z.1 = 1) ∧ (z.2 = 0 ∨ z.2 = 1)) →
    ((zs.filter (fun z => z.1 == 0 && z.2 == 0)).length +
     (zs.filter (fun z => z.1 == 0 && z.2 == 1)).length +
     (zs.filter (fun z => z.1 == 1 && z.2 == 0)).length +
     (zs.filter (fun z => z.1 == 1 && z.2 == 1)).length) = zs.length := by
  intro zs
  induction zs with
  | nil => intro _; simp
  | cons z zs ih =>
    intro h
    have hz := h z (List.mem_cons_self z zs)
    have hrest := ih (fun w hw => h w (List.mem_cons_of_mem z hw))
    rcases hz with ⟨h1 | h1, h2 | h2⟩ <;>
      simp only [List.filter_cons, h1, h2, List.length_cons] <;>
      norm_num <;> omega

lemma cm_of_labels01 (yt yp : List Int) (hlab : cmLabels yt yp = [0, 1]) :
    confusion_matrix yt yp =
      [[cmEntry yt yp 0 0, cmEntry yt yp 0 1],
       [cmEntry yt yp 1 0, cmEntry yt yp 1 1]] := by
  unfold confusion_matrix
  rw [hlab]
  rfl

lemma eval_invariant_core (a b c d n : Nat) (hn : 0 < n) (h : a + b + c + d = n) :
    cmSum [[a, b], [c, d]] = n ∧
    accuracyOf [[a, b], [c, d]] = some (((a + d : Nat) : ℚ) / (n : ℚ)) ∧
    0 ≤ (((a + d : Nat) : ℚ) / (n : ℚ)) ∧
    (((a + d : Nat) : ℚ) / (n : ℚ)) ≤ 1 := by
  have hsum : cmSum [[a, b], [c, d]] = n := by
    simp [cmSum, listSum]
    omega
  refine ⟨hsum, ?_, ?_, ?_⟩
  · simp only [accuracyOf, cmGet, hsum]
    norm_num
  · positivity
  · rw [div_le_one (by exact_mod_cast hn)]
    exact_mod_cast (by omega : a + d ≤ n)

lemma eval_invariant (yt yp : List Int) (hlen : yp.length = yt.length)
    (hlab : cmLabels yt yp = [0, 1]) :
    cmCell (confusion_matrix yt yp) 0 0 + cmCell (confusion_matrix yt yp) 0 1 +
      cmCell (confusion_matrix yt yp) 1 0 + cmCell (confusion_matrix yt yp) 1 1
      = yt.length ∧
    cmSum (confusion_matrix yt yp) = yt.length ∧
    accuracyOf (confusion_matrix yt yp) =
      some (((cmCell (confusion_matrix yt yp) 0 0 +
              cmCell (confusion_matrix yt yp) 1 1 : Nat) : ℚ) / (yt.length : ℚ)) ∧
    0 ≤ (((cmCell (confusion_matrix yt yp) 0 0 +
           cmCell (confusion_matrix yt yp) 1 1 : Nat) : ℚ) / (yt.length : ℚ)) ∧
    (((cmCell (confusion_matrix yt yp) 0 0 +
       cmCell (confusion_matrix yt yp) 1 1 : Nat) : ℚ) / (yt.length : ℚ)) ≤ 1 := by
  have hmem := mem_of_labels01 yt yp hlab
  have hzip : ∀ z ∈ yt.zip yp, (z.1 = 0 ∨ z.1 = 1) ∧ (z.2 = 0 ∨ z.2 = 1) := by
    intro z hz
    obtain ⟨a, b⟩ := z
    obtain ⟨h1, h2⟩ := List.of_mem_zip hz
    exact ⟨hmem a (List.mem_append.mpr (Or.inl h1)),
           hmem b (List.mem_append.mpr (Or.inr h2))⟩
  have hlenzip : (yt.zip yp).length = yt.length := by
    rw [List.length_zip, hlen, Nat.min_self]
  have hpart := four_counts (yt.zip yp) hzip
  rw [hlenzip] at hpart
  have hsum4 : cmEntry yt yp 0 0 + cmEntry yt yp 0 1 +
      cmEntry yt yp 1 0 + cmEntry yt yp 1 1 = yt.length := hpart
  have hpos := labels01_length_pos yt yp hlen hlab
  have hcm := cm_of_labels01 yt yp hlab
  have hcells :
      cmCell (confusion_matrix yt yp) 0 0 = cmEntry yt yp 0 0 ∧
      cmCell (confusion_matrix yt yp) 0 1 = cmEntry yt yp 0 1 ∧
      cmCell (confusion_matrix yt yp) 1 0 = cmEntry yt yp 1 0 ∧
      cmCell (confusion_matrix yt yp) 1 1 = cmEntry yt yp 1 1 := by
    rw [hcm]
    exact ⟨rfl, rfl, rfl, rfl⟩
  obtain ⟨hc00, hc01, hc10, hc11⟩ := hcells
  have hcore := eval_invariant_core (cmEntry yt yp 0 0) (cmEntry yt yp 0 1)
    (cmEntry yt yp 1 0) (cmEntry yt yp 1 1) yt.length hpos
    (by omega)
  rw [hc00, hc01, hc10, hc11, hcm]
  exact ⟨by omega, hcore.1, hcore.2.1, hcore.2.2.1, hcore.2.2.2⟩

/-! ### Helper lemmas about the epoch loop -/

lemma trainedSeq_self (d : Dataset) : ∀ k, trainedSeq d d k = List.replicate k d := by
  intro k
  cases k with
  | zero => rfl
  | succ j => simp [trainedSeq, List.replicate_succ]

lemma range_map_shift {α : Type} (f : Nat → α) (k t : Nat) :
    (List.range (k + 1)).map (fun i => f (t + i)) =
      f t :: (List.range k).map (fun i => f (t + 1 + i)) := by
  rw [List.range_succ_eq_map, List.map_cons, List.map_map]
  refine congrArg₂ _ (by rw [Nat.add_zero]) ?_
  apply List.map_congr_left
  intro a _
  show f (t + (a + 1)) = f (t + 1 + a)
  congr 1
  omega

lemma torchLoop_invariants (cmOf : Nat → List (List Nat)) : ∀ (k t : Nat) (r : TorchRun),
    (torchLoop cmOf k t r).train_file = r.train_file ∧
    (torchLoop cmOf k t r).threshold = r.threshold ∧
    (torchLoop cmOf k t r).scalar = r.scalar ∧
    (torchLoop cmOf k t r).test_dataset = r.test_dataset ∧
    (torchLoop cmOf k t r).savedCount = r.savedCount + k ∧
    (torchLoop cmOf k t r).cms = r.cms ++ (List.range k).map (fun i => cmOf (t + i)) ∧
    (torchLoop cmOf k t r).resampled =
      r.resampled ++ List.replicate k (DatasetReader r.train_file true (some r.scalar)) ∧
    (torchLoop cmOf k t r).trainedOn =
      r.trainedOn ++ trainedSeq r.train_dataset (DatasetReader r.train_file true (some r.scalar)) k ∧
    (torchLoop cmOf k t r).plotted = r.plotted := by
  intro k
  induction k with
  | zero =>
    intro t r
    simp [torchLoop, trainedSeq]
  | succ k ih =>
    intro t r
    have hstep : torchLoop cmOf (k + 1) t r =
        torchLoop cmOf k (t + 1) (torchEpochStep (cmOf t) r) := rfl
    obtain ⟨h1, h2, h3, h4, h5, h6, h7, h8, h9⟩ := ih (t + 1) (torchEpochStep (cmOf t) r)
    rw [hstep]
    refine ⟨h1, h2, h3, h4, ?_, ?_, ?_, ?_, h9⟩
    · rw [h5]
      show r.savedCount + 1 + k = r.savedCount + (k + 1)
      omega
    · rw [h6]
      show r.cms ++ [cmOf t] ++ (List.range k).map (fun i => cmOf (t + 1 + i)) = _
      rw [range_map_shift]
      simp
    · rw [h7]
      show r.resampled ++ [DatasetReader r.train_file true (some r.scalar)] ++
          List.replicate k (DatasetReader r.train_file true (some r.scalar)) = _
      rw [List.replicate_succ]
      simp
    · rw [h8]
      show r.trainedOn ++ [r.train_dataset] ++
          trainedSeq (DatasetReader r.train_file true (some r.scalar))
            (DatasetReader r.train_file true (some r.scalar)) k = _
      rw [trainedSeq_self]
      show _ = r.trainedOn ++ (r.train_dataset ::
        List.replicate k (DatasetReader r.train_file true (some r.scalar)))
      simp

lemma commenceTraining_run (tf te : String) (th : ℚ) (n : Nat)
    (cmOf : Nat → List (List Nat)) (titles : List String) :
    (TorchModel.commenceTraining n cmOf titles (TorchModel.init tf te th)).cms =
      (List.range n).map cmOf ∧
    (TorchModel.commenceTraining n cmOf titles (TorchModel.init tf te th)).savedCount = n ∧
    (TorchModel.commenceTraining n cmOf titles (TorchModel.init tf te th)).resampled =
      List.replicate n (DatasetReader tf true (some { fitOnFile := tf })) ∧
    (TorchModel.commenceTraining n cmOf titles (TorchModel.init tf te th)).trainedOn =
      trainedSeq (DatasetReader tf true none) (DatasetReader tf true (some { fitOnFile := tf })) n ∧
    (TorchModel.commenceTraining n cmOf titles (TorchModel.init tf te th)).plotted =
      some ((List.range n).map cmOf, titles) := by
  have h := torchLoop_invariants cmOf n 0 { TorchModel.init tf te th with cms := [] }
  obtain ⟨h1, h2, h3, h4, h5, h6, h7, h8, h9⟩ := h
  have hrangemap : (List.range n).map (fun i => cmOf (0 + i)) = (List.range n).map cmOf := by
    apply List.map_congr_left
    intro a _
    rw [Nat.zero_add]
  constructor
  · show (torchLoop cmOf n 0 { TorchModel.init tf te th with cms := [] }).cms = _
    rw [h6, hrangemap]
    rfl
  constructor
  · show (torchLoop cmOf n 0 { TorchModel.init tf te th with cms := [] }).savedCount = _
    rw [h5]
    show 0 + n = n
    omega
  constructor
  · show (torchLoop cmOf n 0 { TorchModel.init tf te th with cms := [] }).resampled = _
    rw [h7]
    rfl
  constructor
  · show (torchLoop cmOf n 0 { TorchModel.init tf te th with cms := [] }).trainedOn = _
    rw [h8]
    rfl
  · show (some ((torchLoop cmOf n 0 { TorchModel.init tf te th with cms := [] }).cms, titles) :
      Option (List (List (List Nat)) × List String)) = _
    rw [h6, hrangemap]
    rfl

/-! ### Helper lemmas about predictions -/

lemma predictions_getElem (probs : List ℚ) (t : ℚ) (i : Nat) (p : ℚ)
    (hp : probs[i]? = some p) :
    (TorchModel.predictions probs t)[i]? = some (if t ≤ p then (1 : Int) else 0) := by
  simp [TorchModel.predictions, List.getElem?_map, hp]

lemma positiveCount_thresh_mono (t1 t2 : ℚ) (h : t1 ≤ t2) : ∀ probs : List ℚ,
    positiveCount (TorchModel.predictions probs t2) ≤
      positiveCount (TorchModel.predictions probs t1) := by
  intro probs
  induction probs with
  | nil => simp [TorchModel.predictions, positiveCount]
  | cons p ps ih =>
    by_cases h2 : t2 ≤ p
    · have h1 : t1 ≤ p := le_trans h h2
      simp only [TorchModel.predictions, positiveCount, List.map_cons, List.filter_cons,
        if_pos h1, if_pos h2] at ih ⊢
      norm_num
      omega
    · by_cases h1 : t1 ≤ p <;>
        simp only [TorchModel.predictions, positiveCount, List.map_cons, List.filter_cons,
          h1, h2, if_true, if_false, ite_true, ite_false, if_pos, if_neg, not_false_iff] at ih ⊢ <;>
        norm_num <;>
        omega

/-! ### The claims -/

/-- Claim C1: for every evaluation run of either lifecycle (TorchModel.test
or SklearnModel.test) whose confusion matrix is 2x2 (both class values occur
among the actual and predicted labels), the four cells of the matrix total
the number of evaluated test samples, and the derived accuracy equals
(cm[0, 0] + cm[1, 1]) / total and lies in [0, 1]. -/
theorem spec_c1 (probs : List ℚ) (raws targets : List Int) (t : ℚ) (sup : Bool)
    (hp : probs.length = targets.length) (hr : raws.length = targets.length)
    (hlabT : cmLabels targets (TorchModel.predictions probs t) = [0, 1])
    (hlabS : cmLabels targets (SklearnModel.predictions sup probs raws t) = [0, 1]) :
    evalOk (TorchModel.test probs targets t) targets.length ∧
    evalOk (SklearnModel.test sup probs raws targets t) targets.length := by
  constructor
  · have hT := eval_invariant targets (TorchModel.predictions probs t)
      (by simp [TorchModel.predictions, hp]) hlabT
    exact hT
  · have hlen : (SklearnModel.predictions sup probs raws t).length = targets.length := by
      cases sup <;> simp [SklearnModel.predictions, hp, hr]
    exact eval_invariant targets (SklearnModel.predictions sup probs raws t) hlen hlabS

/-- Witness for claim C1 at a concrete evaluation: two test samples with
targets [0, 1], torch probabilities [0, 1] at threshold 1, and an
unsupervised sklearn model with raw labels [-1, 1]. -/
theorem spec_c1_witness :
    ([(0 : ℚ), 1].length = [(0 : Int), 1].length) ∧
    ([(-1 : Int), 1].length = [(0 : Int), 1].length) ∧
    cmLabels [(0 : Int), 1] (TorchModel.predictions [(0 : ℚ), 1] 1) = [0, 1] ∧
    cmLabels [(0 : Int), 1] (SklearnModel.predictions false [(0 : ℚ), 1] [(-1 : Int), 1] 1) = [0, 1] ∧
    (evalOk (TorchModel.test [(0 : ℚ), 1] [(0 : Int), 1] 1) [(0 : Int), 1].length ∧
     evalOk (SklearnModel.test false [(0 : ℚ), 1] [(-1 : Int), 1] [(0 : Int), 1] 1) [(0 : Int), 1].length) :=
  ⟨by decide, by decide, by decide, by decide,
   spec_c1 [(0 : ℚ), 1] [(-1 : Int), 1] [(0 : Int), 1] 1 false
     (by decide) (by decide) (by decide) (by decide)⟩

/-- Claim C2 (amended): in TorchModel.commenceTraining the model is first
retrained on the current training set - for the first epoch the set built at
construction, the one the scaler was fitted on - and only then is the
undersampled training set re-constructed fresh with the same fitted scaler,
to be trained on in the following epoch; each epoch then re-evaluates,
persists a checkpoint and records its confusion matrix; the loop runs for
exactly the fixed epoch count with no early stopping, and afterwards all
recorded confusion matrices are handed to the plotting collaborator. -/
theorem spec_c2 (tf te : String) (th : ℚ) (n : Nat)
    (cmOf : Nat → List (List Nat)) (titles : List String) :
    (TorchModel.commenceTraining n cmOf titles (TorchModel.init tf te th)).cms =
      (List.range n).map cmOf ∧
    (TorchModel.commenceTraining n cmOf titles (TorchModel.init tf te th)).savedCount = n ∧
    (TorchModel.commenceTraining n cmOf titles (TorchModel.init tf te th)).resampled =
      List.replicate n (DatasetReader tf true (some { fitOnFile := tf })) ∧
    (TorchModel.commenceTraining n cmOf titles (TorchModel.init tf te th)).trainedOn =
      trainedSeq (DatasetReader tf true none) (DatasetReader tf true (some { fitOnFile := tf })) n ∧
    (TorchModel.commenceTraining n cmOf titles (TorchModel.init tf te th)).plotted =
      some ((List.range n).map cmOf, titles) :=
  commenceTraining_run tf te th n cmOf titles

/-- Counterexample to claim C2 as stated: the claim orders each epoch as
re-sample first, then retrain on the fresh resample, which would make the
sequence of datasets trained on coincide with the sequence of datasets
resampled; in a concrete one-epoch run of the code the epoch trains on the
construction-time dataset (built without a passed scaler) and the resample
happens only after that training step, so the two sequences differ. -/
theorem spec_c2_counterexample :
    trainsOnlyOnFreshResamples
      (TorchModel.commenceTraining 1 (fun _ => [[1]]) ["Training"]
        (TorchModel.init "fraudTrain.csv" "fraudTest.csv" 1)) = false := by
  decide

/-- Claim C3: in both lifecycles the scaler is fitted on the training set
(the training DatasetReader is constructed without a passed scaler), the
test dataset is constructed with exactly that fitted scaler (so no scaler is
ever fitted on test data), and every training set re-constructed inside the
epoch loop passes the same originally fitted scaler while keeping
undersampling on. -/
theorem spec_c3 (tf te : String) (th : ℚ) (n : Nat)
    (cmOf : Nat → List (List Nat)) (titles : List String) :
    (TorchModel.init tf te th).scalar = (TorchModel.init tf te th).train_dataset.getScalar ∧
    (TorchModel.init tf te th).train_dataset.scalarArg = none ∧
    (TorchModel.init tf te th).train_dataset.csv_file = tf ∧
    (TorchModel.init tf te th).test_dataset.scalarArg = some ((TorchModel.init tf te th).scalar) ∧
    (TorchModel.init tf te th).test_dataset.getScalar = { fitOnFile := tf } ∧
    ((TorchModel.commenceTraining n cmOf titles (TorchModel.init tf te th)).resampled.all
      (fun d => d.scalarArg == some { fitOnFile := tf } && d.undersample)) = true ∧
    (SklearnModel.init tf te th).scalar = (SklearnModel.init tf te th).train_dataset.getScalar ∧
    (SklearnModel.init tf te th).train_dataset.scalarArg = none ∧
    (SklearnModel.init tf te th).train_dataset.csv_file = tf ∧
    (SklearnModel.init tf te th).test_dataset.scalarArg = some ((SklearnModel.init tf te th).scalar) ∧
    (SklearnModel.init tf te th).test_dataset.getScalar = { fitOnFile := tf } := by
  refine ⟨rfl, rfl, rfl, rfl, rfl, ?_, rfl, rfl, rfl, rfl, rfl⟩
  have hres := (commenceTraining_run tf te th n cmOf titles).2.2.1
  rw [hres]
  rw [List.all_eq_true]
  intro d hd
  rw [List.eq_of_mem_replicate hd]
  simp [DatasetReader]

/-- Claim C4: on every fit/predict lifecycle state whose model is still
unassigned, train() raises the ValueError with the descriptive message of
SuperCreateModel.py line 240, and the state of the instance after the call
is the state before it. -/
theorem spec_c4 (s : SklearnState) (h : s.model = none) :
    SklearnModel.train s =
      (Except.error (PyError.valueError
        "Model not defined. Please set self.model in subclass before training."), s) := by
  unfold SklearnModel.train
  rw [h]

/-- Witness for claim C4: a freshly constructed SklearnModel has model none,
and its train() call returns the ValueError and the unchanged state. -/
theorem spec_c4_witness :
    (SklearnModel.init "fraudTrain.csv" "fraudTest.csv" 1).model = none ∧
    SklearnModel.train (SklearnModel.init "fraudTrain.csv" "fraudTest.csv" 1) =
      (Except.error (PyError.valueError
        "Model not defined. Please set self.model in subclass before training."),
       SklearnModel.init "fraudTrain.csv" "fraudTest.csv" 1) :=
  ⟨rfl, spec_c4 (SklearnModel.init "fraudTrain.csv" "fraudTest.csv" 1) rfl⟩

/-- Claim C5 (code bug): TorchModel.initModel does not raise - its body is
the statement return NotImplemented, so calling it on the base class returns
the NotImplemented sentinel normally instead of failing with a
not-implemented error as the spec intends for an abstract extension point. -/
theorem spec_c5 :
    TorchModel.initModel = Except.ok PyValue.notImplemented ∧
    TorchModel.initModel.isOk = true :=
  ⟨rfl, rfl⟩

/-- Claim C6: in SklearnModel.test a supervised model produces, for each
sample, the thresholded positive-class probability, while an unsupervised
model maps its raw output label to 1 exactly when that label is 1 and to 0
otherwise - and for the unsupervised branch the threshold plays no role at
all (any two thresholds give the same predictions). -/
theorem spec_c6 (probs : List ℚ) (raws : List Int) (t t2 : ℚ) :
    SklearnModel.predictions false probs raws t = SklearnModel.predictions false probs raws t2 ∧
    (∀ (i : Nat) (p : ℚ), probs[i]? = some p →
      (SklearnModel.predictions true probs raws t)[i]? =
        some (if t ≤ p then 1 else 0)) ∧
    (∀ (i : Nat) (r : Int), raws[i]? = some r →
      (SklearnModel.predictions false probs raws t)[i]? =
        some (if r = 1 then 1 else 0)) := by
  refine ⟨rfl, ?_, ?_⟩
  · intro i p hp
    simp [SklearnModel.predictions, List.getElem?_map, hp]
  · intro i r hr
    simp [SklearnModel.predictions, List.getElem?_map, hr]

/-- Witness for claim C6 at concrete inputs: one probability 1 against
threshold 1 on the supervised branch, and raw labels [1, -1] on the
unsupervised branch compared at thresholds 1 and 0. -/
theorem spec_c6_witness :
    (SklearnModel.predictions false [(1 : ℚ)] [1, -1] 1 =
      SklearnModel.predictions false [(1 : ℚ)] [1, -1] 0) ∧
    ([(1 : ℚ)][0]? = some 1 ∧
      (SklearnModel.predictions true [(1 : ℚ)] [1, -1] 1)[0]? =
        some (if (1 : ℚ) ≤ 1 then 1 else 0)) ∧
    ([(1 : Int), -1][1]? = some (-1) ∧
      (SklearnModel.predictions false [(1 : ℚ)] [1, -1] 1)[1]? =
        some (if (-1 : Int) = 1 then 1 else 0)) := by
  have h := spec_c6 [(1 : ℚ)] [1, -1] 1 0
  exact ⟨h.1, ⟨by decide, h.2.1 0 1 (by decide)⟩, ⟨by decide, h.2.2 1 (-1) (by decide)⟩⟩

/-- Claim C7 (amended): in both lifecycles a sample is classified positive
exactly when its predicted probability is greater than or equal to the
configured threshold: in particular a sample whose probability equals the
threshold IS classified positive. -/
theorem spec_c7 (probs : List ℚ) (raws : List Int) (t : ℚ) (i : Nat) (p : ℚ)
    (hp : probs[i]? = some p) :
    ((TorchModel.predictions probs t)[i]? = some 1 ↔ t ≤ p) ∧
    ((TorchModel.predictions probs t)[i]? = some 0 ↔ p < t) ∧
    SklearnModel.predictions true probs raws t = TorchModel.predictions probs t ∧
    TorchModel.predictions [t] t = [1] := by
  have hmap := predictions_getElem probs t i p hp
  refine ⟨?_, ?_, rfl, by simp [TorchModel.predictions]⟩
  · rw [hmap]
    by_cases h : t ≤ p
    · simp [h]
    · simp [h]
  · rw [hmap]
    by_cases h : t ≤ p
    · simp [h, not_lt.mpr h]
    · simp [h, not_le.mp h]

/-- Witness for claim C7 at a concrete input: probabilities [0, 1] at
threshold 1, sample 0 carrying probability 0. -/
theorem spec_c7_witness :
    ([(0 : ℚ), 1][0]? = some 0) ∧
    (((TorchModel.predictions [(0 : ℚ), 1] 1)[0]? = some 1 ↔ (1 : ℚ) ≤ 0) ∧
     ((TorchModel.predictions [(0 : ℚ), 1] 1)[0]? = some 0 ↔ (0 : ℚ) < 1) ∧
     SklearnModel.predictions true [(0 : ℚ), 1] [] 1 = TorchModel.predictions [(0 : ℚ), 1] 1 ∧
     TorchModel.predictions [(1 : ℚ)] 1 = [1]) :=
  ⟨by decide, spec_c7 [(0 : ℚ), 1] [] 1 0 0 (by decide)⟩

/-- Counterexample to claim C7 as stated: the claim says a sample whose
probability equals the threshold is not classified positive, but both
lifecycles use a greater-or-equal comparison: at probability 1/2 and
threshold 1/2 the code classifies the sample positive while the claimed
strictly-above rule does not. -/
theorem spec_c7_counterexample :
    TorchModel.predictions [(1 : ℚ)/2] (1/2) = [1] ∧
    SklearnModel.predictions true [(1 : ℚ)/2] [] (1/2) = [1] ∧
    claimedPositive ((1 : ℚ)/2) (1/2) = false := by
  refine ⟨?_, ?_, ?_⟩ <;> norm_num [TorchModel.predictions, SklearnModel.predictions, claimedPositive]

/-- Claim C8: for a fixed list of predicted probabilities, raising the
threshold never increases the count of positive predictions, in either
lifecycle. -/
theorem spec_c8 (probs : List ℚ) (raws : List Int) (t1 t2 : ℚ) (h : t1 ≤ t2) :
    positiveCount (TorchModel.predictions probs t2) ≤
      positiveCount (TorchModel.predictions probs t1) ∧
    positiveCount (SklearnModel.predictions true probs raws t2) ≤
      positiveCount (SklearnModel.predictions true probs raws t1) :=
  ⟨positiveCount_thresh_mono t1 t2 h probs, positiveCount_thresh_mono t1 t2 h probs⟩

/-- Witness for claim C8 at a concrete input: probabilities [0, 1] compared
at thresholds 0 and 1. -/
theorem spec_c8_witness :
    ((0 : ℚ) ≤ 1) ∧
    (positiveCount (TorchModel.predictions [(0 : ℚ), 1] 1) ≤
      positiveCount (TorchModel.predictions [(0 : ℚ), 1] 0) ∧
     positiveCount (SklearnModel.predictions true [(0 : ℚ), 1] [] 1) ≤
      positiveCount (SklearnModel.predictions true [(0 : ℚ), 1] [] 0)) :=
  ⟨by decide, spec_c8 [(0 : ℚ), 1] [] 0 1 (by decide)⟩

/-- Claim C9: both saveModel methods persist a record with exactly the
fields model, threshold, model_type and scalar to a file named
ModelType-then-Model-underscore-timestamp-extension; the gradient lifecycle
stores the constant model_type "PyTorch" whatever subclass tag names the
file, the fit/predict lifecycle stores the subclass tag itself, and the two
serialization extensions differ (.pth against .joblib). -/
theorem spec_c9 (M : Type) (m : M) (th : ℚ) (tag : String) (sc : Scalar) (ts : String) :
    (TorchModel.saveModel M m th tag sc ts).1.model = m ∧
    (TorchModel.saveModel M m th tag sc ts).1.threshold = th ∧
    (TorchModel.saveModel M m th tag sc ts).1.model_type = "PyTorch" ∧
    (TorchModel.saveModel M m th tag sc ts).1.scalar = sc ∧
    (TorchModel.saveModel M m th tag sc ts).2 = tag ++ "Model_" ++ ts ++ ".pth" ∧
    (SklearnModel.saveModel M m th tag sc ts).1.model = m ∧
    (SklearnModel.saveModel M m th tag sc ts).1.threshold = th ∧
    (SklearnModel.saveModel M m th tag sc ts).1.model_type = tag ∧
    (SklearnModel.saveModel M m th tag sc ts).1.scalar = sc ∧
    (SklearnModel.saveModel M m th tag sc ts).2 = tag ++ "Model_" ++ ts ++ ".joblib" ∧
    (".pth" : String) ≠ ".joblib" :=
  ⟨rfl, rfl, rfl, rfl, rfl, rfl, rfl, rfl, rfl, rfl, by decide⟩

/-- Claim C10: the accuracy computation indexes cells [0, 0] and [1, 1] of
the confusion matrix, and on a test set where every actual label and every
prediction is the single class 0 the matrix is 1x1, the [1, 1] read is out
of bounds, and both lifecycles fail to produce an accuracy. -/
theorem spec_c10 :
    (TorchModel.test [0, 0, 0] [0, 0, 0] 1).1 = [[3]] ∧
    (TorchModel.test [0, 0, 0] [0, 0, 0] 1).2 = none ∧
    (SklearnModel.test false [] [-1, -1, -1] [0, 0, 0] 1).1 = [[3]] ∧
    (SklearnModel.test false [] [-1, -1, -1] [0, 0, 0] 1).2 = none ∧
    cmGet [[3]] 1 1 = none ∧
    cmGet [[3]] 0 0 = some 3 := by
  refine ⟨by decide, by decide, by decide, by decide, by decide, by decide⟩
